import Mathlib

/-!
Verification of the orchestrator monitor loop
(scripts/proof-workers/tmux-monitor.sh, tmux-orchestrate.sh).

The scripts coordinate a fixed pool of worker processes through three pieces of
mutable state: per-worker state files under state/workers/, the issue list
inside config/proof-issues.json, and the append-only event log
state/orchestrator-log.jsonl.  This file embeds that state surface and the
functions of the monitor loop that read and write it, and proves or refutes
the frozen claims about them.
-/

namespace Orchestrator

/-- An issue record of config/proof-issues.json .issues[] as the scripts read and
write it: get_next_issue reads number, wave, priority, depends_on and status;
execute_decision rewrites status and assigned_worker.  Status values are the
strings the scripts use: "pending", "in_progress", "completed", "failed". -/
structure Issue where
  number : Nat
  title : String
  wave : Nat
  priority : Nat
  depends_on : List Nat
  status : String
  assigned_worker : Option Nat
  deriving DecidableEq, Repr

/-- The per-worker record: the persisted state file state/workers/worker-N.json
(fields as written by init_state of tmux-orchestrate.sh and rewritten by
execute_decision of tmux-monitor.sh), together with the two external per-worker
files the monitor manipulates: the log /tmp/proof-worker-N.log, modeled by its
size, and the signal file /tmp/orchestrator-signal-N, modeled by its optional
integer content (none when the file is absent). -/
structure WorkerRec where
  worker_id : Nat
  issue_number : Nat
  branch : String
  worktree : String
  status : String
  started_at : Option String
  retry_count : Nat
  last_log_size : Nat
  commits : List String
  log_size : Nat
  signal : Option Int
  deriving DecidableEq, Repr

/-- One line of state/orchestrator-log.jsonl as written by log_event: the
timestamp wrapper plus the jq object built at the log_event call site (the
action name and whichever of worker, issue, new_issue, retry_count that call
site includes). -/
structure Event where
  timestamp : String
  action : String
  worker : Option Nat
  issue : Option Nat
  new_issue : Option Nat
  retry : Option Nat
  deriving DecidableEq, Repr

/-- A decision object of the JSON action array (the action types listed in the
system prompt of make_decisions): an action string plus the optional worker,
issue and new_issue fields. -/
structure Decision where
  action : String
  worker : Option Nat
  issue : Option Nat
  new_issue : Option Nat
  reason : String
  deriving DecidableEq, Repr

/-- The mutable state surface of one monitor cycle: the worker state files
(with their log and signal files), the issue list of the config, and the
append-only event log. -/
structure OrchState where
  workers : List WorkerRec
  issues : List Issue
  eventLog : List Event
  deriving DecidableEq, Repr

/-- Rewrite of the one state file whose worker_id matches, as the jq edit of a
single state/workers/worker-N.json does; records of other workers are
untouched. -/
def updateWorker (ws : List WorkerRec) (wid : Nat) (f : WorkerRec → WorkerRec) :
    List WorkerRec :=
  ws.map fun w => if w.worker_id = wid then f w else w

/-- Rewrite of the issues whose number matches, as the jq map over .issues in
the config does. -/
def updateIssue (il : List Issue) (n : Nat) (f : Issue → Issue) : List Issue :=
  il.map fun i => if i.number = n then f i else i

/-- Lookup of a worker state file by worker id. -/
def findWorkerL (ws : List WorkerRec) (wid : Nat) : Option WorkerRec :=
  ws.find? fun w => w.worker_id == wid

/-- Lookup of an issue by number. -/
def findIssueL (il : List Issue) (n : Nat) : Option Issue :=
  il.find? fun i => i.number == n

/-- The jq sort key of get_next_issue, sort_by(.wave, .priority): lexicographic
comparison of the pair [wave, priority]. -/
def issueKeyLe (a b : Issue) : Prop :=
  a.wave < b.wave ∨ (a.wave = b.wave ∧ a.priority ≤ b.priority)

instance : DecidableRel issueKeyLe := fun a b => by
  unfold issueKeyLe; infer_instance

instance : IsTotal Issue issueKeyLe :=
  ⟨fun a b => by unfold issueKeyLe; omega⟩

instance : IsTrans Issue issueKeyLe :=
  ⟨fun a b c hab hbc => by unfold issueKeyLe at *; omega⟩

theorem issueKeyLe_refl (a : Issue) : issueKeyLe a a := by
  unfold issueKeyLe; omega

/-- The select predicate of get_next_issue: status "pending" and every entry of
depends_on contained in the completed list. -/
def isReadyIssue (completed : List Nat) (i : Issue) : Bool :=
  i.status == "pending" && i.depends_on.all fun d => completed.contains d

/-- get_next_issue of tmux-monitor.sh: sort the issues of the config by
(wave, priority) with the stable jq sort (modeled by insertion sort, which is
stable), keep the pending issues whose depends_on are all in the completed
list, and return the number of the first one, if any. -/
def get_next_issue (issues : List Issue) (completed : List Nat) : Option Nat :=
  (((List.insertionSort issueKeyLe issues).filter (isReadyIssue completed)).head?).map
    Issue.number

/-- execute_decision of tmux-monitor.sh: applies one decision to the state
surface.  Side effects that do not touch the modeled state (log_msg echoes,
the git push to the remote, worktree creation, prompt generation and the tmux
relaunch of the worker command) are elided; every write to a worker state
file, to the issue list, to a log file or signal file, and every log_event
append is modeled.  now is the timestamp that date -u produces inside the
action.  The branch and worktree strings use the branch_prefix and
worktree_base values the repository scripts use (proof/issue-N under
worktrees/).  The restart arm reads the state file of the worker; the arm in
which that file is missing (the script would abort there under set -e) is
modeled as leaving the state unchanged. -/
def execute_decision (now : String) (d : Decision) (st : OrchState) : OrchState :=
  let wid := d.worker.getD 0
  if d.action = "noop" then
    st
  else if d.action = "push" then
    { st with eventLog := st.eventLog ++ [⟨now, "push", d.worker, d.issue, none, none⟩] }
  else if d.action = "mark_complete" then
    { st with
        issues := updateIssue st.issues (d.issue.getD 0)
          (fun i => { i with status := "completed" }),
        eventLog := st.eventLog ++ [⟨now, "mark_complete", none, d.issue, none, none⟩] }
  else if d.action = "reassign" then
    match d.new_issue with
    | none => st
    | some n =>
      { st with
          workers := updateWorker st.workers wid fun w =>
            { w with
                issue_number := n
                branch := "proof/issue-" ++ toString n
                worktree := "worktrees/issue-" ++ toString n
                status := "running"
                started_at := some now
                retry_count := 0
                last_log_size := 0
                commits := []
                signal := none
                log_size := 0 },
          issues := updateIssue st.issues n
            (fun i => { i with status := "in_progress", assigned_worker := some wid }),
          eventLog := st.eventLog ++ [⟨now, "reassign", d.worker, none, some n, none⟩] }
  else if d.action = "restart" then
    match findWorkerL st.workers wid with
    | none => st
    | some w0 =>
      { st with
          workers := updateWorker st.workers wid fun w =>
            { w with
                retry_count := w.retry_count + 1
                status := "running"
                signal := none },
          eventLog := st.eventLog ++
            [⟨now, "restart", d.worker, some w0.issue_number, none,
              some (w0.retry_count + 1)⟩] }
  else if d.action = "skip" then
    { st with
        workers := updateWorker st.workers wid fun w => { w with status := "failed" },
        issues := updateIssue st.issues (d.issue.getD 0)
          (fun i => { i with status := "failed" }),
        eventLog := st.eventLog ++ [⟨now, "skip", d.worker, d.issue, none, none⟩] }
  else if d.action = "idle" then
    { st with
        workers := updateWorker st.workers wid fun w => { w with status := "idle" } }
  else
    st

/-- execute_decisions of tmux-monitor.sh: applies each decision of the parsed
array in order. -/
def execute_decisions (now : String) (ds : List Decision) (st : OrchState) : OrchState :=
  ds.foldl (fun s d => execute_decision now d s) st

/-- The per-worker JSON object built by collect_worker_state of
tmux-monitor.sh.  new_commits holds the lines of git log --oneline
origin/main..HEAD (empty list when there are none); the log modification time
is modeled in seconds (the script formats the stat result as a string). -/
structure Snapshot where
  worker_id : Nat
  issue_number : Nat
  status : String
  claude_running : Bool
  signal_file_exists : Bool
  exit_code : Option Int
  log_size_bytes : Nat
  log_last_modified : Nat
  log_tail : String
  git_status : String
  new_commits : List String
  deriving DecidableEq, Repr

/-- The report built by build_status_report of tmux-monitor.sh: a timestamp,
one snapshot per worker, and the issues of the config. -/
structure StatusReport where
  timestamp : String
  workers : List Snapshot
  issues : List Issue
  deriving DecidableEq, Repr

/-- make_decisions of tmux-monitor.sh.  The status report is embedded in a
prompt and sent to an external language model (claude -p); the reply is free
text from which the script extracts the last JSON array (code-block
extraction, then a bare-array scan).  modelOutput is the result of that
extraction: some ds when a valid JSON array was recovered from the model
reply, none when not.  The only computation the script itself performs on the
way to the decision list is deterministic: return the recovered array, or
fall back to the empty array. -/
def make_decisions (_report : StatusReport) (modelOutput : Option (List Decision)) :
    List Decision :=
  modelOutput.getD []

/-- Modelled from the spec: the per-worker policy of the Decision Engine (spec
section 4.3, rules 1 to 5, mirrored by the Rules list of the system prompt
inside make_decisions).  The repository contains no executable implementation
of this policy - each cycle delegates it to the external model - so the rules
are modeled here from the words of the spec and of the prompt.  maxRetries
and stallTimeout are the policy constants; now and the log modification time
of the snapshot are in seconds.  The reassignment target is computed by the
get_next_issue function of the script. -/
def decide_worker (maxRetries stallTimeout now : Nat) (issues : List Issue)
    (completed : List Nat) (retry : Nat) (s : Snapshot) : List Decision :=
  if !s.claude_running && s.signal_file_exists then
    if s.exit_code == some 0 && !s.new_commits.isEmpty then
      ⟨"push", some s.worker_id, some s.issue_number, none,
        "worker completed successfully"⟩ ::
      ⟨"mark_complete", none, some s.issue_number, none, "implementation done"⟩ ::
      (match get_next_issue issues completed with
       | some n => [⟨"reassign", some s.worker_id, none, some n, "moving to next issue"⟩]
       | none => [⟨"idle", some s.worker_id, none, none, "no more issues available"⟩])
    else if retry < maxRetries then
      [⟨"restart", some s.worker_id, none, none, "stalled/failed"⟩]
    else
      [⟨"skip", some s.worker_id, some s.issue_number, none, "exceeded retry limit"⟩]
  else if s.claude_running && stallTimeout < now - s.log_last_modified then
    if retry < maxRetries then
      [⟨"restart", some s.worker_id, none, none, "stalled/failed"⟩]
    else
      [⟨"skip", some s.worker_id, some s.issue_number, none, "exceeded retry limit"⟩]
  else if s.claude_running then
    [⟨"noop", some s.worker_id, none, none, "still running normally"⟩]
  else
    if retry < maxRetries then
      [⟨"restart", some s.worker_id, none, none, "stalled/failed"⟩]
    else
      [⟨"skip", some s.worker_id, some s.issue_number, none, "exceeded retry limit"⟩]

/-- The ready_issues operation as the spec words it, written down for
comparison with get_next_issue: all Pending issues whose depends_on are all
Completed, ordered by wave ascending, then priority ascending, then id
ascending as the final tie-break. -/
def specKeyLe (a b : Issue) : Prop :=
  a.wave < b.wave ∨ (a.wave = b.wave ∧
    (a.priority < b.priority ∨ (a.priority = b.priority ∧ a.number ≤ b.number)))

instance : DecidableRel specKeyLe := fun a b => by
  unfold specKeyLe; infer_instance

/-- The ordered ready list as the spec describes it (see specKeyLe). -/
def ready_issues_spec (issues : List Issue) (completed : List Nat) : List Issue :=
  List.insertionSort specKeyLe (issues.filter (isReadyIssue completed))

/-- External effects of the launch script tmux-orchestrate.sh, in the order
the script performs them.  Echoes to the terminal and sleeps are elided;
every effect that touches external state (the repository, the filesystem,
the tmux server) is listed. -/
inductive Effect where
  | gitFetch
  | mkdirWorktreeBase
  | mkdirStateDir
  | worktreeAdd (issue : Nat)
  | writeStateFile (worker issue : Nat)
  | tmuxNewSession
  | tmuxNewWindow (name : String)
  | rmSignal (worker : Nat)
  | writePromptFile (worker : Nat)
  | markRunning (worker : Nat)
  | tmuxLaunchWorker (worker : Nat)
  | startMonitor
  | startDashboard
  | exitError
  deriving DecidableEq, Repr

/-- create_worktrees of tmux-orchestrate.sh.  assignments pairs each worker id
with its initial issue number (the initial_assignments table of the config);
existing lists the issue numbers whose worktree directory already exists.
The git fetch and the worktree creation are guarded by the dry-run flag, the
mkdir -p of the worktree base is not. -/
def create_worktrees (dryRun : Bool) (assignments : List (Nat × Nat))
    (existing : List Nat) : List Effect :=
  (if dryRun then [] else [Effect.gitFetch]) ++ [Effect.mkdirWorktreeBase] ++
    assignments.flatMap fun p =>
      if p.2 ∈ existing then [] else if dryRun then [] else [Effect.worktreeAdd p.2]

/-- init_state of tmux-orchestrate.sh: the mkdir -p of the state directory is
unconditional, the state-file writes are guarded by the dry-run flag. -/
def init_state (dryRun : Bool) (assignments : List (Nat × Nat)) : List Effect :=
  [Effect.mkdirStateDir] ++
    assignments.flatMap fun p =>
      if dryRun then [] else [Effect.writeStateFile p.1 p.2]

/-- create_tmux_session of tmux-orchestrate.sh: aborts when the session
already exists (also under dry run); otherwise creates the session and its
windows unless dry run. -/
def create_tmux_session (dryRun sessionExists : Bool)
    (assignments : List (Nat × Nat)) : List Effect :=
  if sessionExists then [Effect.exitError]
  else if dryRun then []
  else
    Effect.tmuxNewSession :: Effect.tmuxNewWindow "orchestrator" ::
      (assignments.map fun p => Effect.tmuxNewWindow ("worker-" ++ toString p.1)) ++
      [Effect.tmuxNewWindow "dashboard"]

/-- launch_workers of tmux-orchestrate.sh: for each worker the rm -f of the
stale signal file is unconditional; the prompt generation, the state rewrite
to running and the tmux launch are guarded by the dry-run flag. -/
def launch_workers (dryRun : Bool) (assignments : List (Nat × Nat)) : List Effect :=
  assignments.flatMap fun p =>
    Effect.rmSignal p.1 ::
      (if dryRun then []
       else [Effect.writePromptFile p.1, Effect.markRunning p.1,
             Effect.tmuxLaunchWorker p.1])

/-- launch_monitor of tmux-orchestrate.sh: starts tmux-monitor.sh (the
decision loop) in the orchestrator window unless dry run. -/
def launch_monitor (dryRun : Bool) : List Effect :=
  if dryRun then [] else [Effect.startMonitor]

/-- launch_dashboard of tmux-orchestrate.sh. -/
def launch_dashboard (dryRun : Bool) : List Effect :=
  if dryRun then [] else [Effect.startDashboard]

/-- main of tmux-orchestrate.sh: the stages in script order (check_prereqs and
load_config only read, so they contribute no effects; the script aborts inside
create_tmux_session when the session already exists). -/
def orchestrate_main (dryRun sessionExists : Bool) (assignments : List (Nat × Nat))
    (existing : List Nat) : List Effect :=
  create_worktrees dryRun assignments existing ++
    init_state dryRun assignments ++
    (if sessionExists then [Effect.exitError]
     else
       create_tmux_session dryRun sessionExists assignments ++
         launch_workers dryRun assignments ++
         launch_monitor dryRun ++ launch_dashboard dryRun)

/-! Concrete states used to instantiate the theorems. -/

/-- A worker record assigned to issue 52 after two retries, with a 100 byte
log file and a written signal file. -/
def demoWorker : WorkerRec :=
  ⟨1, 52, "proof/issue-52", "worktrees/issue-52", "running", some "t0", 2, 10, [], 100, some 0⟩

/-- Issue 52: wave 1, priority 1, no dependencies, pending. -/
def demoIssue52 : Issue := ⟨52, "issue 52", 1, 1, [], "pending", none⟩

/-- Issue 53: wave 1, priority 2, depends on 52, pending. -/
def demoIssue53 : Issue := ⟨53, "issue 53", 1, 2, [52], "pending", none⟩

/-- Issue 52 with completed status. -/
def demoIssue52done : Issue := ⟨52, "issue 52", 1, 1, [], "completed", none⟩

/-- A one-worker state over issues 52 and 53 with an empty event log. -/
def demoState : OrchState := ⟨[demoWorker], [demoIssue52, demoIssue53], []⟩

/-- The same state with issue 52 already completed. -/
def demoStateDone : OrchState := ⟨[demoWorker], [demoIssue52done, demoIssue53], []⟩

/-- Two ready issues sharing wave and priority, the larger number listed
first, in the order get_next_issue reads them from the config. -/
def demoPair : List Issue :=
  [⟨7, "issue 7", 1, 1, [], "pending", none⟩, ⟨3, "issue 3", 1, 1, [], "pending", none⟩]

/-- A finished snapshot: process gone, signal written with value 0, no new
commits. -/
def demoSnapshot : Snapshot := ⟨1, 52, "running", false, true, some 0, 10, 0, "", "", []⟩

/-! Helper lemmas about the update and lookup functions. -/

theorem findWorkerL_updateWorker (ws : List WorkerRec) (wid : Nat)
    (f : WorkerRec → WorkerRec) (hf : ∀ w, (f w).worker_id = w.worker_id) :
    findWorkerL (updateWorker ws wid f) wid = (findWorkerL ws wid).map f := by
  induction ws with
  | nil => rfl
  | cons a t ih =>
    unfold findWorkerL updateWorker at *
    by_cases h : a.worker_id = wid
    · simp [h, hf]
    · simp only [List.map_cons, if_neg h]
      rw [List.find?_cons_of_neg, List.find?_cons_of_neg]
      · exact ih
      · simpa using h
      · simpa using h

theorem findWorkerL_updateWorker_other (ws : List WorkerRec) (wid wid' : Nat)
    (f : WorkerRec → WorkerRec) (hne : wid' ≠ wid)
    (hf : ∀ w, (f w).worker_id = w.worker_id) :
    findWorkerL (updateWorker ws wid f) wid' = findWorkerL ws wid' := by
  induction ws with
  | nil => rfl
  | cons a t ih =>
    unfold findWorkerL updateWorker at *
    by_cases h : a.worker_id = wid'
    · have hwa : ¬ a.worker_id = wid := by rw [h]; exact hne
      simp only [List.map_cons, if_neg hwa]
      rw [List.find?_cons_of_pos _ (by simp [h]), List.find?_cons_of_pos _ (by simp [h])]
    · by_cases h2 : a.worker_id = wid
      · simp only [List.map_cons, if_pos h2]
        rw [List.find?_cons_of_neg, List.find?_cons_of_neg]
        · exact ih
        · simpa using h
        · simp [hf, h]
      · simp only [List.map_cons, if_neg h2]
        rw [List.find?_cons_of_neg, List.find?_cons_of_neg]
        · exact ih
        · simpa using h
        · simpa using h

theorem findIssueL_updateIssue (il : List Issue) (n : Nat)
    (f : Issue → Issue) (hf : ∀ i, (f i).number = i.number) :
    findIssueL (updateIssue il n f) n = (findIssueL il n).map f := by
  induction il with
  | nil => rfl
  | cons a t ih =>
    unfold findIssueL updateIssue at *
    by_cases h : a.number = n
    · simp [h, hf]
    · simp only [List.map_cons, if_neg h]
      rw [List.find?_cons_of_neg, List.find?_cons_of_neg]
      · exact ih
      · simpa using h
      · simpa using h

theorem findIssueL_updateIssue_other (il : List Issue) (n n' : Nat)
    (f : Issue → Issue) (hne : n' ≠ n) (hf : ∀ i, (f i).number = i.number) :
    findIssueL (updateIssue il n f) n' = findIssueL il n' := by
  induction il with
  | nil => rfl
  | cons a t ih =>
    unfold findIssueL updateIssue at *
    by_cases h : a.number = n'
    · have hwa : ¬ a.number = n := by rw [h]; exact hne
      simp only [List.map_cons, if_neg hwa]
      rw [List.find?_cons_of_pos _ (by simp [h]), List.find?_cons_of_pos _ (by simp [h])]
    · by_cases h2 : a.number = n
      · simp only [List.map_cons, if_pos h2]
        rw [List.find?_cons_of_neg, List.find?_cons_of_neg]
        · exact ih
        · simpa using h
        · simp [hf, h]
      · simp only [List.map_cons, if_neg h2]
        rw [List.find?_cons_of_neg, List.find?_cons_of_neg]
        · exact ih
        · simpa using h
        · simpa using h

theorem updateIssue_idem (il : List Issue) (n : Nat) (f : Issue → Issue)
    (hf : ∀ i, f (f i) = f i) :
    updateIssue (updateIssue il n f) n f = updateIssue il n f := by
  unfold updateIssue
  rw [List.map_map]
  apply List.map_congr_left
  intro i _
  by_cases h : i.number = n
  · simp only [Function.comp_apply, if_pos h]
    by_cases h2 : (f i).number = n
    · rw [if_pos h2, hf]
    · rw [if_neg h2]
  · simp [Function.comp_apply, if_neg h]

/-- Characterization of a successful get_next_issue call: the returned number
names an issue of the config that is pending, has all dependencies in the
completed list, and is minimal for the (wave, priority) sort key among all
such issues. -/
theorem get_next_issue_choice (issues : List Issue) (completed : List Nat) (n : Nat)
    (h : get_next_issue issues completed = some n) :
    ∃ i, i ∈ issues ∧ i.number = n ∧ isReadyIssue completed i = true ∧
      ∀ j ∈ issues, isReadyIssue completed j = true → issueKeyLe i j := by
  unfold get_next_issue at h
  cases hL : (List.insertionSort issueKeyLe issues).filter (isReadyIssue completed) with
  | nil => rw [hL] at h; simp at h
  | cons i t =>
    rw [hL] at h
    simp only [List.head?_cons, Option.map_some', Option.some.injEq] at h
    have hiL : i ∈ (List.insertionSort issueKeyLe issues).filter (isReadyIssue completed) := by
      rw [hL]; exact List.mem_cons_self i t
    have hi1 : i ∈ issues :=
      (List.perm_insertionSort issueKeyLe issues).mem_iff.mp (List.mem_of_mem_filter hiL)
    have hi2 : isReadyIssue completed i = true := List.of_mem_filter hiL
    refine ⟨i, hi1, h, hi2, ?_⟩
    intro j hj hready
    have hjL : j ∈ (List.insertionSort issueKeyLe issues).filter (isReadyIssue completed) :=
      List.mem_filter.mpr
        ⟨(List.perm_insertionSort issueKeyLe issues).mem_iff.mpr hj, hready⟩
    rw [hL] at hjL
    rcases List.mem_cons.mp hjL with hji | hjt
    · rw [hji]; exact issueKeyLe_refl i
    · have hsorted : List.Sorted issueKeyLe (List.insertionSort issueKeyLe issues) :=
        List.sorted_insertionSort issueKeyLe issues
      have hsortedL :
          List.Sorted issueKeyLe
            ((List.insertionSort issueKeyLe issues).filter (isReadyIssue completed)) :=
        List.Pairwise.sublist (List.filter_sublist _) hsorted
      rw [hL] at hsortedL
      exact List.rel_of_sorted_cons hsortedL j hjt

/-! Per-action unfolding equations of execute_decision; each holds by
definitional reduction of the if-chain on the action string. -/

theorem exec_noop_eq (t : String) (dw di dni : Option Nat) (r : String) (st : OrchState) :
    execute_decision t ⟨"noop", dw, di, dni, r⟩ st = st := rfl

theorem exec_push_eq (t : String) (dw di dni : Option Nat) (r : String) (st : OrchState) :
    execute_decision t ⟨"push", dw, di, dni, r⟩ st =
      { st with eventLog := st.eventLog ++ [⟨t, "push", dw, di, none, none⟩] } := rfl

theorem exec_mark_complete_eq (t : String) (dw di dni : Option Nat) (r : String)
    (st : OrchState) :
    execute_decision t ⟨"mark_complete", dw, di, dni, r⟩ st =
      { st with
          issues := updateIssue st.issues (di.getD 0)
            (fun i => { i with status := "completed" }),
          eventLog := st.eventLog ++ [⟨t, "mark_complete", none, di, none, none⟩] } := rfl

theorem exec_reassign_none_eq (t : String) (dw di : Option Nat) (r : String)
    (st : OrchState) :
    execute_decision t ⟨"reassign", dw, di, none, r⟩ st = st := rfl

theorem exec_reassign_some_eq (t : String) (dw di : Option Nat) (n : Nat) (r : String)
    (st : OrchState) :
    execute_decision t ⟨"reassign", dw, di, some n, r⟩ st =
      { st with
          workers := updateWorker st.workers (dw.getD 0) fun w =>
            { w with
                issue_number := n
                branch := "proof/issue-" ++ toString n
                worktree := "worktrees/issue-" ++ toString n
                status := "running"
                started_at := some t
                retry_count := 0
                last_log_size := 0
                commits := []
                signal := none
                log_size := 0 },
          issues := updateIssue st.issues n
            (fun i => { i with status := "in_progress", assigned_worker := some (dw.getD 0) }),
          eventLog := st.eventLog ++ [⟨t, "reassign", dw, none, some n, none⟩] } := rfl

theorem exec_restart_eq (t : String) (dw di dni : Option Nat) (r : String)
    (st : OrchState) :
    execute_decision t ⟨"restart", dw, di, dni, r⟩ st =
      match findWorkerL st.workers (dw.getD 0) with
      | none => st
      | some w0 =>
        { st with
            workers := updateWorker st.workers (dw.getD 0) fun w =>
              { w with retry_count := w.retry_count + 1, status := "running", signal := none },
            eventLog := st.eventLog ++
              [⟨t, "restart", dw, some w0.issue_number, none, some (w0.retry_count + 1)⟩] } := rfl

theorem exec_skip_eq (t : String) (dw di dni : Option Nat) (r : String) (st : OrchState) :
    execute_decision t ⟨"skip", dw, di, dni, r⟩ st =
      { st with
          workers := updateWorker st.workers (dw.getD 0) fun w => { w with status := "failed" },
          issues := updateIssue st.issues (di.getD 0)
            (fun i => { i with status := "failed" }),
          eventLog := st.eventLog ++ [⟨t, "skip", dw, di, none, none⟩] } := rfl

theorem exec_idle_eq (t : String) (dw di dni : Option Nat) (r : String) (st : OrchState) :
    execute_decision t ⟨"idle", dw, di, dni, r⟩ st =
      { st with
          workers := updateWorker st.workers (dw.getD 0) fun w => { w with status := "idle" } } := rfl

/-! Claim theorems. -/

/-- Claim C10: when no valid JSON action array can be recovered from the model
reply of a cycle, make_decisions falls back to the empty decision list, and
executing that empty list leaves the worker records, the issue list and the
event log exactly as they were. -/
theorem unparseable_cycle_executes_nothing (report : StatusReport) (now : String)
    (st : OrchState) :
    make_decisions report none = [] ∧
      execute_decisions now (make_decisions report none) st = st :=
  ⟨rfl, rfl⟩

/-- Claim C2 counterexample: with the status report (snapshots and issue
graph) held fixed, make_decisions returns two different action lists when the
external model replies differently, so the emitted decision list is not a
function of (snapshots, graph, policy) alone. -/
theorem make_decisions_not_report_determined :
    make_decisions ⟨"2024-01-01T00:00:00Z", [], []⟩
        (some [⟨"noop", some 1, none, none, "still running normally"⟩]) ≠
      make_decisions ⟨"2024-01-01T00:00:00Z", [], []⟩
        (some [⟨"idle", some 1, none, none, "no more issues available"⟩]) := by
  decide

/-- Claim C2 (amended): the only computation the script itself performs on the
way to the decision list is deterministic and depends on nothing but the
extracted model output: for any two status reports and the same extraction
result, make_decisions returns the same decision list. -/
theorem make_decisions_determined_by_model_output (r1 r2 : StatusReport)
    (o : Option (List Decision)) :
    make_decisions r1 o = make_decisions r2 o := rfl

/-- Claim C1 counterexample: execute_decision applies a reassignment of
worker 1 to issue 53 although the dependency 52 of issue 53 is still pending
at that moment - the executor performs no dependency check on the decision it
is handed. -/
theorem reassign_applied_without_completed_deps :
    (findIssueL demoState.issues 53).map Issue.depends_on = some [52] ∧
    (findIssueL demoState.issues 52).map Issue.status = some "pending" ∧
    (findIssueL (execute_decision "t1"
        ⟨"reassign", some 1, none, some 53, "moving to next issue"⟩
        demoState).issues 53).map Issue.status = some "in_progress" ∧
    (findIssueL (execute_decision "t1"
        ⟨"reassign", some 1, none, some 53, "moving to next issue"⟩
        demoState).issues 52).map Issue.status = some "pending" := by
  decide

/-- Claim C1 (amended): the dependency gate lives in get_next_issue, not in
the Action Executor: every issue number get_next_issue proposes belongs to an
issue all of whose dependencies are in the completed list, while
execute_decision applies whatever reassignment it is handed without
re-checking dependencies. -/
theorem get_next_issue_deps_completed (issues : List Issue) (completed : List Nat)
    (n : Nat) (h : get_next_issue issues completed = some n) :
    ∃ i, i ∈ issues ∧ i.number = n ∧ ∀ d ∈ i.depends_on, d ∈ completed := by
  obtain ⟨i, h1, h2, h3, _⟩ := get_next_issue_choice issues completed n h
  refine ⟨i, h1, h2, ?_⟩
  unfold isReadyIssue at h3
  simp only [Bool.and_eq_true, beq_iff_eq, List.all_eq_true] at h3
  intro d hd
  simpa using h3.2 d hd

/-- Witness for the amended claim C1 at a concrete graph: with issue 52
completed, get_next_issue proposes 53 and its dependency list is indeed
contained in the completed list. -/
theorem get_next_issue_deps_completed_witness :
    ∃ i, i ∈ [demoIssue52done, demoIssue53] ∧ i.number = 53 ∧
      ∀ d ∈ i.depends_on, d ∈ [52] :=
  get_next_issue_deps_completed [demoIssue52done, demoIssue53] [52] 53 (by decide)

/-- Claim C8 counterexample: two pending issues with identical wave and
priority and no dependencies, listed in the config with number 7 before
number 3.  get_next_issue picks 7 (jq sort_by is stable, so config order
breaks the tie), while the id-ascending tie-break the claim states would put
3 first, as the spec-side ordering shows. -/
theorem get_next_issue_ignores_id_tiebreak :
    get_next_issue demoPair [] = some 7 ∧
    (ready_issues_spec demoPair []).map Issue.number = [3, 7] := by
  decide

/-- Claim C8 (amended): get_next_issue returns the number of a single issue
rather than the whole ordered list; that issue is Pending, has every
dependency in the completed list, and is minimal for the (wave asc, priority
asc) sort key among all such issues - ties are broken by position in the
config file, not by issue id.  The function is pure, so the choice is stable
across calls on the same graph. -/
theorem get_next_issue_first_ready (issues : List Issue) (completed : List Nat)
    (n : Nat) (h : get_next_issue issues completed = some n) :
    ∃ i, i ∈ issues ∧ i.number = n ∧ i.status = "pending" ∧
      (∀ d ∈ i.depends_on, d ∈ completed) ∧
      ∀ j ∈ issues, isReadyIssue completed j = true → issueKeyLe i j := by
  obtain ⟨i, h1, h2, h3, h4⟩ := get_next_issue_choice issues completed n h
  have h3' := h3
  unfold isReadyIssue at h3'
  simp only [Bool.and_eq_true, beq_iff_eq, List.all_eq_true] at h3'
  refine ⟨i, h1, h2, h3'.1, ?_, h4⟩
  intro d hd
  simpa using h3'.2 d hd

/-- Witness for the amended claim C8 at a concrete graph: on the two-issue
config of the counterexample, the chosen issue 7 is pending, dependency-free
and key-minimal among the ready issues. -/
theorem get_next_issue_first_ready_witness :
    ∃ i, i ∈ demoPair ∧ i.number = 7 ∧ i.status = "pending" ∧
      (∀ d ∈ i.depends_on, d ∈ ([] : List Nat)) ∧
      ∀ j ∈ demoPair, isReadyIssue [] j = true → issueKeyLe i j :=
  get_next_issue_first_ready demoPair [] 7 (by decide)

/-- Claim C4 counterexample: an executed reassign whose target equals the
issue the worker already holds resets retry_count from 2 to 0 - so for the
fixed pair (worker 1, issue 52) the counter decreases, and the reset is not
restricted to reassignment to a different issue. -/
theorem retry_reset_on_same_issue_reassign :
    (findWorkerL demoState.workers 1).map WorkerRec.issue_number = some 52 ∧
    (findWorkerL demoState.workers 1).map WorkerRec.retry_count = some 2 ∧
    (findWorkerL (execute_decision "t1" ⟨"reassign", some 1, none, some 52, "again"⟩
        demoState).workers 1).map WorkerRec.issue_number = some 52 ∧
    (findWorkerL (execute_decision "t1" ⟨"reassign", some 1, none, some 52, "again"⟩
        demoState).workers 1).map WorkerRec.retry_count = some 0 := by
  decide

/-- Claim C4 (amended): every executed restart increments retry_count of its
worker by exactly 1; every executed reassign with a non-null target resets it
to 0, whether or not the target differs from the current issue; noop, push,
mark_complete, skip and idle leave it unchanged. -/
theorem retry_count_accounting (t : String) (wid : Nat) (di dni : Option Nat)
    (r : String) (st : OrchState) (w0 : WorkerRec)
    (hw : findWorkerL st.workers wid = some w0) :
    (findWorkerL (execute_decision t ⟨"restart", some wid, di, dni, r⟩ st).workers
        wid).map WorkerRec.retry_count = some (w0.retry_count + 1) ∧
    (∀ n : Nat,
      (findWorkerL (execute_decision t ⟨"reassign", some wid, di, some n, r⟩ st).workers
          wid).map WorkerRec.retry_count = some 0) ∧
    (∀ a ∈ ["noop", "push", "mark_complete", "skip", "idle"],
      (findWorkerL (execute_decision t ⟨a, some wid, di, dni, r⟩ st).workers
          wid).map WorkerRec.retry_count = some w0.retry_count) := by
  refine ⟨?_, ?_, ?_⟩
  · rw [exec_restart_eq]
    simp only [Option.getD_some, hw]
    rw [findWorkerL_updateWorker]
    · simp [hw]
    · intro w; rfl
  · intro n
    rw [exec_reassign_some_eq]
    simp only [Option.getD_some]
    rw [findWorkerL_updateWorker]
    · simp [hw]
    · intro w; rfl
  · intro a ha
    fin_cases ha
    · rw [exec_noop_eq]; simp [hw]
    · rw [exec_push_eq]; simp [hw]
    · rw [exec_mark_complete_eq]; simp [hw]
    · rw [exec_skip_eq]
      simp only [Option.getD_some]
      rw [findWorkerL_updateWorker]
      · simp [hw]
      · intro w; rfl
    · rw [exec_idle_eq]
      simp only [Option.getD_some]
      rw [findWorkerL_updateWorker]
      · simp [hw]
      · intro w; rfl

/-- Witness for the amended claim C4: on the concrete one-worker state, a
restart moves retry_count from 2 to 3 and a reassign resets it to 0. -/
theorem retry_count_accounting_witness :
    (findWorkerL (execute_decision "t1" ⟨"restart", some 1, none, none, "stalled"⟩
        demoState).workers 1).map WorkerRec.retry_count = some 3 ∧
    (findWorkerL (execute_decision "t1" ⟨"reassign", some 1, none, some 53, "next"⟩
        demoState).workers 1).map WorkerRec.retry_count = some 0 :=
  ⟨(retry_count_accounting "t1" 1 none none "stalled" demoState demoWorker rfl).1,
   (retry_count_accounting "t1" 1 none none "next" demoState demoWorker rfl).2.1 53⟩

/-- Claim C5 counterexample: an executed noop appends nothing to the event
log, so it is not the case that every executed action appends one record. -/
theorem noop_appends_no_event :
    (execute_decision "t1" ⟨"noop", some 1, none, none, "still running"⟩
        demoState).eventLog.length ≠ demoState.eventLog.length + 1 := by
  decide

/-- Claim C5 (amended): push, mark_complete, reassign with a non-null target,
restart on an existing worker and skip each append exactly one event log
record; noop, idle and a reassign whose target is null append none. -/
theorem event_log_growth_per_action (t : String) (wid : Nat) (di dni : Option Nat)
    (r : String) (st : OrchState) :
    (execute_decision t ⟨"noop", some wid, di, dni, r⟩ st).eventLog.length =
        st.eventLog.length ∧
    (execute_decision t ⟨"push", some wid, di, dni, r⟩ st).eventLog.length =
        st.eventLog.length + 1 ∧
    (execute_decision t ⟨"mark_complete", some wid, di, dni, r⟩ st).eventLog.length =
        st.eventLog.length + 1 ∧
    (∀ n : Nat,
      (execute_decision t ⟨"reassign", some wid, di, some n, r⟩ st).eventLog.length =
        st.eventLog.length + 1) ∧
    (execute_decision t ⟨"reassign", some wid, di, none, r⟩ st).eventLog.length =
        st.eventLog.length ∧
    (∀ w0 : WorkerRec, findWorkerL st.workers wid = some w0 →
      (execute_decision t ⟨"restart", some wid, di, dni, r⟩ st).eventLog.length =
        st.eventLog.length + 1) ∧
    (execute_decision t ⟨"skip", some wid, di, dni, r⟩ st).eventLog.length =
        st.eventLog.length + 1 ∧
    (execute_decision t ⟨"idle", some wid, di, dni, r⟩ st).eventLog.length =
        st.eventLog.length := by
  refine ⟨?_, ?_, ?_, ?_, ?_, ?_, ?_, ?_⟩
  · rw [exec_noop_eq]
  · rw [exec_push_eq]; simp
  · rw [exec_mark_complete_eq]; simp
  · intro n; rw [exec_reassign_some_eq]; simp
  · rw [exec_reassign_none_eq]
  · intro w0 hw
    rw [exec_restart_eq]
    simp only [Option.getD_some, hw]
    simp
  · rw [exec_skip_eq]; simp
  · rw [exec_idle_eq]

/-- Witness for the amended claim C5 on the concrete state: a push appends
one record, a restart on the existing worker appends one record. -/
theorem event_log_growth_per_action_witness :
    (execute_decision "t1" ⟨"push", some 1, some 52, none, "done"⟩
        demoState).eventLog.length = demoState.eventLog.length + 1 ∧
    (execute_decision "t1" ⟨"restart", some 1, none, none, "stalled"⟩
        demoState).eventLog.length = demoState.eventLog.length + 1 :=
  ⟨(event_log_growth_per_action "t1" 1 (some 52) none "done" demoState).2.1,
   (event_log_growth_per_action "t1" 1 none none "stalled" demoState).2.2.2.2.2.1
     demoWorker rfl⟩

/-- Claim C6 counterexample: a restart of worker 1 removes the signal file but
leaves the 100 byte log exactly as it was - the log is not truncated to size
0 by a restart (the relaunched worker command appends to it). -/
theorem restart_does_not_truncate_log :
    (findWorkerL demoState.workers 1).map WorkerRec.log_size = some 100 ∧
    (findWorkerL (execute_decision "t1" ⟨"restart", some 1, none, none, "stalled"⟩
        demoState).workers 1).map WorkerRec.log_size = some 100 ∧
    (findWorkerL (execute_decision "t1" ⟨"restart", some 1, none, none, "stalled"⟩
        demoState).workers 1).map WorkerRec.signal = some none := by
  decide

/-- Claim C6 (amended): a reassign with a target truncates the worker log to
size 0 and removes the completion signal; a restart removes the completion
signal but leaves the log size unchanged. -/
theorem restart_reassign_log_and_signal (t : String) (wid : Nat) (di dni : Option Nat)
    (r : String) (st : OrchState) (w0 : WorkerRec)
    (hw : findWorkerL st.workers wid = some w0) :
    (∀ n : Nat,
      (findWorkerL (execute_decision t ⟨"reassign", some wid, di, some n, r⟩ st).workers
          wid).map WorkerRec.log_size = some 0 ∧
      (findWorkerL (execute_decision t ⟨"reassign", some wid, di, some n, r⟩ st).workers
          wid).map WorkerRec.signal = some none) ∧
    (findWorkerL (execute_decision t ⟨"restart", some wid, di, dni, r⟩ st).workers
        wid).map WorkerRec.log_size = some w0.log_size ∧
    (findWorkerL (execute_decision t ⟨"restart", some wid, di, dni, r⟩ st).workers
        wid).map WorkerRec.signal = some none := by
  refine ⟨?_, ?_, ?_⟩
  · intro n
    rw [exec_reassign_some_eq]
    simp only [Option.getD_some]
    constructor
    · rw [findWorkerL_updateWorker]
      · simp [hw]
      · intro w; rfl
    · rw [findWorkerL_updateWorker]
      · simp [hw]
      · intro w; rfl
  · rw [exec_restart_eq]
    simp only [Option.getD_some, hw]
    rw [findWorkerL_updateWorker]
    · simp [hw]
    · intro w; rfl
  · rw [exec_restart_eq]
    simp only [Option.getD_some, hw]
    rw [findWorkerL_updateWorker]
    · simp [hw]
    · intro w; rfl

/-- Witness for the amended claim C6 on the concrete state: after a reassign
the log size is 0 and the signal is gone; after a restart the signal is gone
while the log keeps its 100 bytes. -/
theorem restart_reassign_log_and_signal_witness :
    (findWorkerL (execute_decision "t1" ⟨"reassign", some 1, none, some 53, "next"⟩
        demoState).workers 1).map WorkerRec.log_size = some 0 ∧
    (findWorkerL (execute_decision "t1" ⟨"restart", some 1, none, none, "stalled"⟩
        demoState).workers 1).map WorkerRec.log_size = some 100 ∧
    (findWorkerL (execute_decision "t1" ⟨"restart", some 1, none, none, "stalled"⟩
        demoState).workers 1).map WorkerRec.signal = some none :=
  ⟨((restart_reassign_log_and_signal "t1" 1 none none "next" demoState demoWorker
        rfl).1 53).1,
   (restart_reassign_log_and_signal "t1" 1 none none "stalled" demoState demoWorker
        rfl).2.1,
   (restart_reassign_log_and_signal "t1" 1 none none "stalled" demoState demoWorker
        rfl).2.2⟩

/-- Claim C7 counterexample: after a first mark_complete of issue 52 the state
is converged; replaying the same action changes no issue, but the event log
grows by one more record, so the replay is not free of additional event log
entries. -/
theorem replay_mark_complete_appends_event :
    (execute_decision "t2" ⟨"mark_complete", none, some 52, none, "done"⟩
        (execute_decision "t2" ⟨"mark_complete", none, some 52, none, "done"⟩
          demoState)).issues =
      (execute_decision "t2" ⟨"mark_complete", none, some 52, none, "done"⟩
        demoState).issues ∧
    (execute_decision "t2" ⟨"mark_complete", none, some 52, none, "done"⟩
        (execute_decision "t2" ⟨"mark_complete", none, some 52, none, "done"⟩
          demoState)).eventLog.length =
      (execute_decision "t2" ⟨"mark_complete", none, some 52, none, "done"⟩
        demoState).eventLog.length + 1 := by
  decide

/-- Claim C7 (amended): replaying push or mark_complete against the state the
first execution produced changes no worker record and no issue - the state
writes are idempotent - but each replay appends one more event log record. -/
theorem replay_push_mark_complete_state_idempotent (t1 t2 : String)
    (dw di dni : Option Nat) (r : String) (st : OrchState) :
    ((execute_decision t2 ⟨"push", dw, di, dni, r⟩
          (execute_decision t1 ⟨"push", dw, di, dni, r⟩ st)).workers =
        (execute_decision t1 ⟨"push", dw, di, dni, r⟩ st).workers ∧
      (execute_decision t2 ⟨"push", dw, di, dni, r⟩
          (execute_decision t1 ⟨"push", dw, di, dni, r⟩ st)).issues =
        (execute_decision t1 ⟨"push", dw, di, dni, r⟩ st).issues ∧
      (execute_decision t2 ⟨"push", dw, di, dni, r⟩
          (execute_decision t1 ⟨"push", dw, di, dni, r⟩ st)).eventLog.length =
        (execute_decision t1 ⟨"push", dw, di, dni, r⟩ st).eventLog.length + 1) ∧
    ((execute_decision t2 ⟨"mark_complete", dw, di, dni, r⟩
          (execute_decision t1 ⟨"mark_complete", dw, di, dni, r⟩ st)).workers =
        (execute_decision t1 ⟨"mark_complete", dw, di, dni, r⟩ st).workers ∧
      (execute_decision t2 ⟨"mark_complete", dw, di, dni, r⟩
          (execute_decision t1 ⟨"mark_complete", dw, di, dni, r⟩ st)).issues =
        (execute_decision t1 ⟨"mark_complete", dw, di, dni, r⟩ st).issues ∧
      (execute_decision t2 ⟨"mark_complete", dw, di, dni, r⟩
          (execute_decision t1 ⟨"mark_complete", dw, di, dni, r⟩ st)).eventLog.length =
        (execute_decision t1 ⟨"mark_complete", dw, di, dni, r⟩ st).eventLog.length + 1) := by
  refine ⟨⟨?_, ?_, ?_⟩, ⟨?_, ?_, ?_⟩⟩
  · rw [exec_push_eq, exec_push_eq]
  · rw [exec_push_eq, exec_push_eq]
  · rw [exec_push_eq, exec_push_eq]; simp
  · rw [exec_mark_complete_eq, exec_mark_complete_eq]
  · rw [exec_mark_complete_eq, exec_mark_complete_eq]
    simp only
    exact updateIssue_idem st.issues (di.getD 0) _ (fun i => rfl)
  · rw [exec_mark_complete_eq, exec_mark_complete_eq]; simp

/-- Claim C3: a worker that finished with signal value 0 but no new commits
is treated as failed, not completed: the policy emits no push and no
mark_complete for it, and emits exactly one restart when retry_count is below
max_retries, otherwise exactly one skip; executing that skip marks the issue
failed in the config. -/
theorem zero_commits_is_failure (mr sto now : Nat) (issues : List Issue)
    (completed : List Nat) (retry : Nat) (s : Snapshot)
    (h1 : s.claude_running = false) (h2 : s.signal_file_exists = true)
    (_h3 : s.exit_code = some 0) (h4 : s.new_commits = []) :
    (∀ d ∈ decide_worker mr sto now issues completed retry s,
        d.action ≠ "push" ∧ d.action ≠ "mark_complete") ∧
    decide_worker mr sto now issues completed retry s =
      (if retry < mr then
        [⟨"restart", some s.worker_id, none, none, "stalled/failed"⟩]
       else
        [⟨"skip", some s.worker_id, some s.issue_number, none, "exceeded retry limit"⟩]) ∧
    ∀ (t : String) (st : OrchState) (i0 : Issue),
      findIssueL st.issues s.issue_number = some i0 →
        (findIssueL (execute_decision t
            ⟨"skip", some s.worker_id, some s.issue_number, none, "exceeded retry limit"⟩
            st).issues s.issue_number).map Issue.status = some "failed" := by
  have heq : decide_worker mr sto now issues completed retry s =
      (if retry < mr then
        [⟨"restart", some s.worker_id, none, none, "stalled/failed"⟩]
       else
        [⟨"skip", some s.worker_id, some s.issue_number, none, "exceeded retry limit"⟩]) := by
    unfold decide_worker
    rw [h1, h2, h4]
    simp
  refine ⟨?_, heq, ?_⟩
  · intro d hd
    rw [heq] at hd
    by_cases hr : retry < mr
    · rw [if_pos hr] at hd
      simp only [List.mem_singleton] at hd
      rw [hd]
      exact ⟨(by decide : ("restart" : String) ≠ "push"),
             (by decide : ("restart" : String) ≠ "mark_complete")⟩
    · rw [if_neg hr] at hd
      simp only [List.mem_singleton] at hd
      rw [hd]
      exact ⟨(by decide : ("skip" : String) ≠ "push"),
             (by decide : ("skip" : String) ≠ "mark_complete")⟩
  · intro t st i0 hi
    rw [exec_skip_eq]
    simp only [Option.getD_some]
    rw [findIssueL_updateIssue]
    · simp [hi]
    · intro i; rfl

/-- Witness for claim C3: on the concrete finished snapshot with exit code 0
and no commits, the policy emits exactly one restart at retry 0 and exactly
one skip at retry 3, and that skip turns issue 52 of the demo state failed. -/
theorem zero_commits_is_failure_witness :
    decide_worker 3 900 0 [demoIssue52, demoIssue53] [] 0 demoSnapshot =
      [⟨"restart", some 1, none, none, "stalled/failed"⟩] ∧
    decide_worker 3 900 0 [demoIssue52, demoIssue53] [] 3 demoSnapshot =
      [⟨"skip", some 1, some 52, none, "exceeded retry limit"⟩] ∧
    (findIssueL (execute_decision "t1"
        ⟨"skip", some 1, some 52, none, "exceeded retry limit"⟩
        demoState).issues 52).map Issue.status = some "failed" :=
  ⟨(zero_commits_is_failure 3 900 0 [demoIssue52, demoIssue53] [] 0 demoSnapshot
      rfl rfl rfl rfl).2.1,
   (zero_commits_is_failure 3 900 0 [demoIssue52, demoIssue53] [] 3 demoSnapshot
      rfl rfl rfl rfl).2.1,
   (zero_commits_is_failure 3 900 0 [demoIssue52, demoIssue53] [] 3 demoSnapshot
      rfl rfl rfl rfl).2.2 "t1" demoState demoIssue52 rfl⟩

/-! Dry-run equations for the stages of tmux-orchestrate.sh. -/

theorem create_worktrees_dry (a : List (Nat × Nat)) (existing : List Nat) :
    create_worktrees true a existing = [Effect.mkdirWorktreeBase] := by
  unfold create_worktrees
  simp

theorem init_state_dry (a : List (Nat × Nat)) :
    init_state true a = [Effect.mkdirStateDir] := by
  unfold init_state
  simp

theorem launch_workers_dry (a : List (Nat × Nat)) :
    launch_workers true a = a.map fun p => Effect.rmSignal p.1 := by
  unfold launch_workers
  induction a with
  | nil => rfl
  | cons p t ih => simp_all

/-- Claim C9 counterexample: on a concrete two-worker launch under --dry-run,
the monitor loop (the process that runs the Decision Engine and prints its
decisions) is never started, and the script nevertheless touches external
state by removing the stale signal file of worker 1. -/
theorem dry_run_launch_behavior :
    Effect.startMonitor ∉ orchestrate_main true false [(1, 52), (2, 56)] [] ∧
    Effect.rmSignal 1 ∈ orchestrate_main true false [(1, 52), (2, 56)] [] := by
  decide

/-- Claim C9 (amended): under --dry-run the launch script never starts the
monitor loop, so the Decision Engine is not exercised and no action list is
produced; all launch mutations are skipped except that the worktree base and
state directories are still created and stale per-worker signal files are
still removed. -/
theorem dry_run_effects (assignments : List (Nat × Nat)) (existing : List Nat) :
    orchestrate_main true false assignments existing =
      Effect.mkdirWorktreeBase :: Effect.mkdirStateDir ::
        assignments.map (fun p => Effect.rmSignal p.1) ∧
    ∀ sessionExists : Bool,
      Effect.startMonitor ∉ orchestrate_main true sessionExists assignments existing := by
  constructor
  · unfold orchestrate_main
    rw [create_worktrees_dry, init_state_dry, launch_workers_dry]
    simp [create_tmux_session, launch_monitor, launch_dashboard]
  · intro sessionExists
    unfold orchestrate_main
    rw [create_worktrees_dry, init_state_dry]
    cases sessionExists with
    | true =>
      simp
    | false =>
      rw [launch_workers_dry]
      simp [create_tmux_session, launch_monitor, launch_dashboard]

end Orchestrator
